import Mathlib

/-!
Verification of the virtual-computer execution engine of CraftOS-PC 2
(`Computer.cpp`): the yieldable-load trampoline, debug breakpoints,
instance lifecycle and the per-incarnation execution loop.

The definitions below are shallow embeddings of the C++ source.  Because the
trampoline handshake is a strict ping-pong (only one of the two threads runs
at any instant), the combined behaviour of `yieldable_load`, `load_thread`
and `yield_loader` is modelled as a sequential function over the reader's
observable behaviour.
-/

namespace CraftOS

/-! ### Lua values, as observed by the trampoline's reader callback

`yield_loader` inspects the first value returned by the reader coroutine with
`lua_isnoneornil` and `lua_isstring` and converts it with `lua_tolstring`.
Per the Lua 5.1 reference manual, `lua_isstring` returns true for strings
*and* numbers (numbers are always convertible to strings), and
`lua_tolstring` converts a number in place to its decimal representation.
Numbers are modelled as integers (the fractional case changes nothing about
the control flow being verified). -/

inductive LuaValue where
  | nil
  | str (s : String)
  | num (n : Int)
  | boolean (b : Bool)
  | table
  | func
  deriving Repr, DecidableEq

/-- `lua_isnoneornil(coro, 1)`: no value at index 1, or nil. -/
def lua_isnoneornil : Option LuaValue → Bool
  | none => true
  | some .nil => true
  | some _ => false

/-- `lua_isstring`: true for strings and numbers (Lua 5.1 manual). -/
def lua_isstring : Option LuaValue → Bool
  | some (.str _) => true
  | some (.num _) => true
  | _ => false

/-- `lua_tolstring`: the string itself, or a number converted to its decimal
representation.  (Only ever applied where `lua_isstring` holds.) -/
def lua_tolstring : Option LuaValue → String
  | some (.str s) => s
  | some (.num n) => toString n
  | _ => ""

/-! ### The reader's observable behaviour

Each call of `yield_loader` creates a fresh private coroutine from the reader
function and resumes it until it returns (yields are handed back to the
calling VM through the handshake, one suspension each).  One such call is
therefore described by the number of yields performed before the coroutine
returns, and by the first value it finally returns (`none` = no values). -/

structure ReaderCall where
  yields : Nat
  final : Option LuaValue
  deriving Repr, DecidableEq

/-- One invocation of `yield_loader` (Computer.cpp:218-246): resume the
private reader coroutine to completion.  Result: the number of handshake
suspensions performed, and either the next chunk (`some s`), end of input
(`none`), or the `luaL_error` raised for an unconvertible return value. -/
def yield_loader (c : ReaderCall) : Nat × Except String (Option String) :=
  (c.yields,
    if lua_isnoneornil c.final then .ok none
    else if lua_isstring c.final then .ok (some (lua_tolstring c.final))
    else .error "reader function must return a string")

/-- The chunk-collection behaviour of the engine's `lua_load` primitive as
driven by `yield_loader` (`load_thread`, Computer.cpp:249): request chunks
until the reader callback signals end of input or raises.  Returns the total
number of suspensions and the list of chunks fed to the parser. -/
def collectChunks : List ReaderCall → Nat × Except String (List String)
  | [] => (0, .ok [])
  | c :: rest =>
    match yield_loader c with
    | (n, .error e) => (n, .error e)
    | (n, .ok none) => (n, .ok [])
    | (n, .ok (some s)) =>
      (n + (collectChunks rest).1, (collectChunks rest).2.map (s :: ·))

/-- `lua_load(ctx->coro, yield_loader, ctx, ctx->name)` run by the parser
thread: the compile primitive consumes the chunk stream (chunk boundaries are
immaterial to the parser, which sees their concatenation) and compiles it.
`compile` abstracts the engine's parser, which is not part of this
repository. -/
def lua_load {γ : Type _} (compile : String → Except String γ)
    (calls : List ReaderCall) : Nat × Except String γ :=
  let (n, r) := collectChunks calls
  (n, r.bind fun chunks => compile (String.join chunks))

/-- The values staged for the calling VM on completion
(`load_thread`, Computer.cpp:252-259): one value (the compiled function) on
success, two values (nil, then the message) on failure. -/
inductive LoadReturn (γ : Type _) where
  | success (f : γ)
  | failure (msg : String)
  deriving Repr, DecidableEq

/-- The full trampoline (`yieldable_load` + `load_thread` + `yield_loader`,
Computer.cpp:218-319), sequentialized along the strict handshake ping-pong:
the number of times the calling coroutine is suspended (`lua_vyield`), and
the result transferred back when the parser thread completes. -/
def yieldable_load {γ : Type _} (compile : String → Except String γ)
    (calls : List ReaderCall) : Nat × LoadReturn γ :=
  match lua_load compile calls with
  | (n, .ok f) => (n, .success f)
  | (n, .error e) => (n, .failure e)

/-- A reader behaviour that yields as prescribed by `pairs` while returning
the chunks, then (after `k` further yields) returns nil: `pairs.length`
chunk-returning calls followed by one end-of-input call. -/
def mkCalls (pairs : List (Nat × String)) (k : Nat) : List ReaderCall :=
  pairs.map (fun p => ⟨p.1, some (.str p.2)⟩) ++ [⟨k, none⟩]

/-- The non-yielding reader over the concatenated source: one call returning
the whole string, one call returning nil, no yields. -/
def directCalls (s : String) : List ReaderCall :=
  [⟨0, some (.str s)⟩, ⟨0, none⟩]

theorem collectChunks_mkCalls (pairs : List (Nat × String)) (k : Nat) :
    collectChunks (mkCalls pairs k) =
      ((pairs.map Prod.fst).sum + k, .ok (pairs.map Prod.snd)) := by
  induction pairs with
  | nil => simp [mkCalls, collectChunks, yield_loader, lua_isnoneornil]
  | cons p rest ih =>
    simp only [mkCalls] at ih
    simp [mkCalls, collectChunks, yield_loader, lua_isnoneornil,
      lua_isstring, lua_tolstring, ih, Except.map, List.sum_cons,
      Nat.add_assoc]

theorem collectChunks_directCalls (s : String) :
    collectChunks (directCalls s) = (0, .ok [s]) := by
  simp [directCalls, collectChunks, yield_loader, lua_isnoneornil,
    lua_isstring, lua_tolstring, Except.map]

/-- C1. For every reader that yields N times in total and then returns the
chunks of a complete source string, the trampoline suspends the calling
coroutine exactly N times and returns the same compiled result as the
compile primitive driven by a non-yielding reader supplied with the
concatenation of the same chunks (which itself suspends zero times). -/
theorem trampoline_roundtrip {γ : Type _} (compile : String → Except String γ)
    (pairs : List (Nat × String)) (k : Nat) :
    yieldable_load compile (mkCalls pairs k) =
      ((pairs.map Prod.fst).sum + k,
        (yieldable_load compile (directCalls (String.join (pairs.map Prod.snd)))).2) ∧
    (yieldable_load compile (directCalls (String.join (pairs.map Prod.snd)))).1 = 0 := by
  have h1 := collectChunks_mkCalls pairs k
  have h2 := collectChunks_directCalls (String.join (pairs.map Prod.snd))
  constructor
  · simp only [yieldable_load, lua_load, h1, h2, Except.bind]
    have : String.join [String.join (pairs.map Prod.snd)] =
        String.join (pairs.map Prod.snd) := by
      simp [String.join]
    rw [this]
    cases compile (String.join (pairs.map Prod.snd)) <;> rfl
  · simp only [yieldable_load, lua_load, h2, Except.bind]
    cases compile (String.join [String.join (pairs.map Prod.snd)]) <;> rfl

/-! ### Completion handoff of the parser thread (`load_thread`)

`load_thread` (Computer.cpp:248-262) runs the compile primitive and then, if
the context has not been cancelled (`ctx->status == 3`), stages the result
for the calling VM: on success one value (the compiled function), on failure
two values (nil, then the error message), setting the context state to
`Completed(2)` and signalling.  A compile failure is an ordinary staged
result; the function always returns. -/

/-- A value transferred from the parser's coroutine into the calling VM. -/
inductive StagedValue (γ : Type _) where
  | nil
  | str (s : String)
  | fn (f : γ)
  deriving Repr, DecidableEq

/-- What the parser thread leaves behind in the `load_ctx` when it publishes
a completion: state field, argument count, staged values. -/
structure LoadDone (γ : Type _) where
  status : Nat
  argcount : Nat
  values : List (StagedValue γ)
  deriving Repr, DecidableEq

/-- `load_thread` after `lua_load` returns (Computer.cpp:249-262): `none`
models the early `return` on a cancelled context (no publication), otherwise
the published completion record. -/
def load_thread {γ : Type _} (ctxStatus : Nat) (result : Except String γ) :
    Option (LoadDone γ) :=
  if ctxStatus = 3 then none
  else some (match result with
    | .ok f => ⟨2, 1, [.fn f]⟩
    | .error e => ⟨2, 2, [.nil, .str e]⟩)

/-- C2. When the compile primitive finishes and the context is not
cancelled, the parser thread publishes state `Completed(2)` and transfers
exactly one value (the compiled function) on success, or exactly two values
(nil, then the error message) on failure; a compile failure is staged as
this ordinary nil-plus-message result (the function is total — it never
escapes, so it cannot take the host down). -/
theorem load_thread_completion {γ : Type _} (s : Nat) (r : Except String γ)
    (h : s ≠ 3) :
    ∃ d : LoadDone γ, load_thread s r = some d ∧ d.status = 2 ∧
      d.values.length = d.argcount ∧
      (∀ f, r = .ok f → d.argcount = 1 ∧ d.values = [.fn f]) ∧
      (∀ e, r = .error e → d.argcount = 2 ∧ d.values = [.nil, .str e]) := by
  cases r with
  | ok f => exact ⟨⟨2, 1, [.fn f]⟩, by simp [load_thread, h], rfl, rfl,
      by simp, by simp⟩
  | error e => exact ⟨⟨2, 2, [.nil, .str e]⟩, by simp [load_thread, h], rfl,
      rfl, by simp, by simp⟩

/-- Witness for C2 at a concrete failed compile. -/
theorem load_thread_completion_witness :
    (0 : Nat) ≠ 3 ∧
    ∃ d : LoadDone Unit, load_thread 0 (.error "syntax error") = some d ∧
      d.status = 2 ∧ d.values.length = d.argcount ∧
      (∀ f, (Except.error "syntax error" : Except String Unit) = .ok f →
        d.argcount = 1 ∧ d.values = [.fn f]) ∧
      (∀ e, (Except.error "syntax error" : Except String Unit) = .error e →
        d.argcount = 2 ∧ d.values = [.nil, .str e]) :=
  ⟨by decide, load_thread_completion 0 (.error "syntax error") (by decide)⟩

/-! ### C3: the reader-result dispatch of `yield_loader`

The source (Computer.cpp:227-230) tests the reader's first returned value
with `lua_isnoneornil` and `lua_isstring`.  Since `lua_isstring` also
accepts numbers (coercing them to their decimal string form via
`lua_tolstring`), a reader returning a number does *not* raise the type
error: its string form is fed as the next chunk. -/

/-- C3 counterexample: the claim "for any other type of first returned value
[than string], the load fails with a type error" is false — a reader
returning the number 42 feeds the chunk "42" instead of failing. -/
theorem reader_dispatch_counterexample :
    ¬ (∀ c : ReaderCall,
        lua_isnoneornil c.final = false →
        (∀ s, c.final ≠ some (.str s)) →
        (yield_loader c).2 = .error "reader function must return a string") := by
  intro h
  have h42 := h ⟨0, some (.num 42)⟩ (by decide) (by intro s hs; cases hs)
  simp [yield_loader, lua_isnoneornil, lua_isstring, lua_tolstring] at h42

/-- C3 amended. For every resume of the private reader coroutine that
returns normally: a missing or nil first value ends compilation input
normally; a string is fed as the next chunk; a number is fed as its decimal
string form (because `lua_isstring` accepts numbers); any other type fails
with the type error "reader function must return a string".  The number of
suspensions equals the number of yields the coroutine performed. -/
theorem reader_dispatch (c : ReaderCall) :
    (yield_loader c).1 = c.yields ∧
    (lua_isnoneornil c.final = true → (yield_loader c).2 = .ok none) ∧
    (∀ s, c.final = some (.str s) → (yield_loader c).2 = .ok (some s)) ∧
    (∀ n, c.final = some (.num n) →
      (yield_loader c).2 = .ok (some (toString n))) ∧
    (lua_isnoneornil c.final = false → lua_isstring c.final = false →
      (yield_loader c).2 = .error "reader function must return a string") := by
  refine ⟨rfl, ?_, ?_, ?_, ?_⟩
  · intro h; simp [yield_loader, h]
  · intro s hs
    simp [yield_loader, hs, lua_isnoneornil, lua_isstring, lua_tolstring]
  · intro n hn
    simp [yield_loader, hn, lua_isnoneornil, lua_isstring, lua_tolstring]
  · intro h1 h2; simp [yield_loader, h1, h2]

/-- Witness for the amended C3 across the three interesting value classes. -/
theorem reader_dispatch_witness :
    (yield_loader ⟨0, some (.str "chunk")⟩).2 = .ok (some "chunk") ∧
    (yield_loader ⟨2, some (.num 42)⟩).2 = .ok (some "42") ∧
    (yield_loader ⟨1, some (.boolean true)⟩).2 =
      .error "reader function must return a string" :=
  ⟨(reader_dispatch ⟨0, some (.str "chunk")⟩).2.2.1 "chunk" rfl,
   (reader_dispatch ⟨2, some (.num 42)⟩).2.2.2.1 42 rfl,
   (reader_dispatch ⟨1, some (.boolean true)⟩).2.2.2.2 rfl rfl⟩

/-! ### C4: cancellation and finalization of a `load_ctx`

`load_ctx_gc` (Computer.cpp:264-278) is the `__gc` metamethod of the
context userdata.  Its observable behaviour is the ordered sequence of
operations it performs; the parser side's reaction to the `Cancelled(3)`
state is the handshake wait loop of `yield_loader` (Computer.cpp:237-238)
and the early-return guard of `load_thread` (Computer.cpp:250), both
embedded below. -/

inductive GcAction where
  | acquireMutex
  | setStatus (n : Nat)
  | signalCond
  | releaseMutex
  | joinThread
  | destroyThread
  | destroyMutex
  | destroyCondvar
  deriving Repr, DecidableEq

/-- The ordered operations of `load_ctx_gc`: when the parser thread is still
joinable, lock, set state `Cancelled(3)`, signal, unlock (scope exit), join;
then destroy the thread object, the mutex and the condition variable. -/
def load_ctx_gc (joinable : Bool) : List GcAction :=
  (if joinable then
    [.acquireMutex, .setStatus 3, .signalCond, .releaseMutex, .joinThread]
  else []) ++ [.destroyThread, .destroyMutex, .destroyCondvar]

/-- What the parser thread does when it wakes inside the handshake wait loop
`while (ctx->status == 1) ctx->notify.wait(lock)` followed by
`if (ctx->status == 3) luaL_error(L, "")`. -/
inductive WakeResult where
  | keepWaiting
  | cancelError
  | resumeChunks
  deriving Repr, DecidableEq

def handshake_wake (status : Nat) : WakeResult :=
  if status = 1 then .keepWaiting
  else if status = 3 then .cancelError
  else .resumeChunks

/-- C4. Finalizing a context whose parser thread is alive acquires the
mutex, sets the state to `Cancelled(3)`, signals, and joins the parser
thread strictly before destroying the mutex and condition variable; a
parser thread woken mid-handshake by state 3 aborts with an error instead
of waiting again, and `load_thread` then returns without publishing — so
the parser thread never outlives its context. -/
theorem load_ctx_gc_cancellation :
    load_ctx_gc true =
      [.acquireMutex, .setStatus 3, .signalCond, .releaseMutex, .joinThread,
       .destroyThread, .destroyMutex, .destroyCondvar] ∧
    (load_ctx_gc true).indexOf .acquireMutex <
      (load_ctx_gc true).indexOf (.setStatus 3) ∧
    (load_ctx_gc true).indexOf (.setStatus 3) <
      (load_ctx_gc true).indexOf .signalCond ∧
    (load_ctx_gc true).indexOf .signalCond <
      (load_ctx_gc true).indexOf .joinThread ∧
    (load_ctx_gc true).indexOf .joinThread <
      (load_ctx_gc true).indexOf .destroyMutex ∧
    (load_ctx_gc true).indexOf .joinThread <
      (load_ctx_gc true).indexOf .destroyCondvar ∧
    handshake_wake 1 = .keepWaiting ∧
    handshake_wake 3 = .cancelError ∧
    (∀ r : Except String Unit, load_thread 3 r = none) := by
  refine ⟨by decide, by decide, by decide, by decide, by decide, by decide,
    by decide, by decide, fun r => by simp [load_thread]⟩

/-! ### C5: debug breakpoints (`db_breakpoint` / `db_unsetbreakpoint`)

`Computer::breakpoints` is a `std::map<int, std::pair<std::string, lua_Integer>>`,
modelled as an association list with strictly ascending keys.  `db_breakpoint`
(Computer.cpp:167-177) allocates `rbegin()->first + 1` (the greatest key plus
one) or `1` when the map is empty; `db_unsetbreakpoint` (Computer.cpp:179-193)
erases by id, clearing the hook when the map becomes empty.  The stored pair's
path string comes from `fixpath` (virtual-filesystem collaborator) and is
taken here as an input. -/

structure Breakpoint where
  file : String
  line : Int
  deriving Repr, DecidableEq

structure DebugState where
  breakpoints : List (Int × Breakpoint)
  hasBreakpoints : Bool
  forceCheckTimeout : Bool
  hookInstalled : Bool
  deriving Repr, DecidableEq

/-- `computer->breakpoints.rbegin()->first + 1` when nonempty, else `1`:
for the ascending association list, one more than the key of the last
element. -/
def nextBreakpointId : List (Int × Breakpoint) → Int
  | [] => 1
  | [p] => p.1 + 1
  | _ :: rest => nextBreakpointId rest

/-- `std::map::operator[]` insertion keeping keys ascending. -/
def mapInsert (k : Int) (v : Breakpoint) :
    List (Int × Breakpoint) → List (Int × Breakpoint)
  | [] => [(k, v)]
  | (k', v') :: rest =>
    if k < k' then (k, v) :: (k', v') :: rest
    else if k = k' then (k, v) :: rest
    else (k', v') :: mapInsert k v rest

/-- `std::map::erase(key)`. -/
def mapErase (k : Int) :
    List (Int × Breakpoint) → List (Int × Breakpoint)
  | [] => []
  | (k', v') :: rest =>
    if k = k' then rest else (k', v') :: mapErase k rest

/-- `db_breakpoint` (Computer.cpp:167-177): allocate the id, store the
breakpoint, force a timeout check when this is the first breakpoint, set the
flag, install the hook; return the id. -/
def db_breakpoint (st : DebugState) (bp : Breakpoint) : Int × DebugState :=
  let id := nextBreakpointId st.breakpoints
  (id,
    { breakpoints := mapInsert id bp st.breakpoints
      hasBreakpoints := true
      forceCheckTimeout := if !st.hasBreakpoints then true else st.forceCheckTimeout
      hookInstalled := true })

/-- `db_unsetbreakpoint` (Computer.cpp:179-193): erase by id when present
(returning true), clearing the flag and hook when the map becomes empty;
return false otherwise. -/
def db_unsetbreakpoint (st : DebugState) (id : Int) : Bool × DebugState :=
  if st.breakpoints.any (fun p => p.1 = id) then
    let bps := mapErase id st.breakpoints
    (true,
      { breakpoints := bps
        hasBreakpoints := if bps.isEmpty then false else st.hasBreakpoints
        forceCheckTimeout := st.forceCheckTimeout
        hookInstalled := if bps.isEmpty then false else st.hookInstalled })
  else (false, st)

/-- A session refuting id-uniqueness: set (id 1), set (id 2), unset 2,
set again. -/
def bpSession0 : DebugState := ⟨[], false, false, false⟩
def bpSession1 : Int × DebugState := db_breakpoint bpSession0 ⟨"@/a.lua", 10⟩
def bpSession2 : Int × DebugState := db_breakpoint bpSession1.2 ⟨"@/b.lua", 20⟩
def bpSession3 : Bool × DebugState := db_unsetbreakpoint bpSession2.2 2
def bpSession4 : Int × DebugState := db_breakpoint bpSession3.2 ⟨"@/c.lua", 30⟩

/-- C5 counterexample: ids are reused.  In the session set/set/unset 2/set,
the second set is assigned id 2, that breakpoint is removed, and the next
set is assigned id 2 again — refuting "no id ever assigned during the
session is assigned again, even after the breakpoint holding it has been
removed". -/
theorem breakpoint_id_reuse_counterexample :
    bpSession1.1 = 1 ∧ bpSession2.1 = 2 ∧ bpSession3.1 = true ∧
    bpSession4.1 = 2 ∧ bpSession4.1 = bpSession2.1 := by
  decide

theorem mem_lt_nextBreakpointId :
    ∀ (l : List (Int × Breakpoint)),
      l.Chain' (fun a b => a.1 < b.1) →
      ∀ p ∈ l, p.1 < nextBreakpointId l := by
  intro l
  induction l with
  | nil => intro _ p hp; simp at hp
  | cons a rest ih =>
    intro hchain p hp
    cases rest with
    | nil =>
      have hpa : p = a := by simpa using hp
      subst hpa
      show p.1 < p.1 + 1
      omega
    | cons b rest' =>
      have hab : a.1 < b.1 := (List.chain'_cons.mp hchain).1
      have hrest := (List.chain'_cons.mp hchain).2
      have hnext : nextBreakpointId (a :: b :: rest') =
          nextBreakpointId (b :: rest') := rfl
      rw [hnext]
      rcases List.mem_cons.mp hp with h | h
      · subst h
        have hb := ih hrest b (by simp)
        omega
      · exact ih hrest p h

theorem nextBreakpointId_getLast :
    ∀ (l : List (Int × Breakpoint)) (p : Int × Breakpoint),
      l.getLast? = some p → nextBreakpointId l = p.1 + 1 := by
  intro l
  induction l with
  | nil => intro p hp; cases hp
  | cons a rest ih =>
    intro p hp
    cases rest with
    | nil =>
      have hpa : a = p := by simpa using hp
      subst hpa
      rfl
    | cons b rest' =>
      rw [List.getLast?_cons_cons] at hp
      exact ih p hp

theorem mapInsert_gt_eq_append (k : Int) (v : Breakpoint) :
    ∀ (l : List (Int × Breakpoint)), (∀ p ∈ l, p.1 < k) →
      mapInsert k v l = l ++ [(k, v)] := by
  intro l
  induction l with
  | nil => intro _; rfl
  | cons a rest ih =>
    intro h
    have ha : a.1 < k := h a (by simp)
    simp only [mapInsert]
    rw [if_neg (by omega), if_neg (by omega), ih (fun p hp => h p (by simp [hp]))]
    simp

/-- C5 amended. Each newly set breakpoint is assigned id one greater than
the current maximum (or 1 when the map is empty); the id is strictly
greater than every key currently in the map — so it never collides with a
*live* breakpoint — and the map stays sorted with the new binding present.
(Ids of *removed* breakpoints can be reused, per the counterexample.) -/
theorem db_breakpoint_fresh (st : DebugState) (bp : Breakpoint)
    (h : st.breakpoints.Chain' (fun a b => a.1 < b.1)) :
    (st.breakpoints = [] → (db_breakpoint st bp).1 = 1) ∧
    (∀ p, st.breakpoints.getLast? = some p →
      (db_breakpoint st bp).1 = p.1 + 1) ∧
    (∀ p ∈ st.breakpoints, p.1 < (db_breakpoint st bp).1) ∧
    ((db_breakpoint st bp).1, bp) ∈ (db_breakpoint st bp).2.breakpoints ∧
    (db_breakpoint st bp).2.breakpoints.Chain'
      (fun a b => a.1 < b.1) := by
  have hlt := mem_lt_nextBreakpointId st.breakpoints h
  have happ := mapInsert_gt_eq_append (nextBreakpointId st.breakpoints) bp
    st.breakpoints hlt
  refine ⟨?_, fun p hp => nextBreakpointId_getLast st.breakpoints p hp,
    hlt, ?_, ?_⟩
  · intro hnil; simp [db_breakpoint, hnil, nextBreakpointId]
  · simp [db_breakpoint, happ]
  · simp only [db_breakpoint, happ]
    refine List.Chain'.append h (List.chain'_singleton _) ?_
    intro x hx y hy
    simp at hy
    subst hy
    obtain ⟨hne, hxe⟩ := List.mem_getLast?_eq_getLast hx
    exact hlt x (hxe ▸ List.getLast_mem hne)

/-- Witness for the amended C5 at a concrete sorted map {1, 3}. -/
theorem db_breakpoint_fresh_witness :
    (db_breakpoint ⟨[(1, ⟨"@/a.lua", 1⟩), (3, ⟨"@/b.lua", 2⟩)], true, false, true⟩
        ⟨"@/c.lua", 3⟩).1 = 4 ∧
    ∀ p ∈ ([(1, (⟨"@/a.lua", 1⟩ : Breakpoint)), (3, ⟨"@/b.lua", 2⟩)] :
        List (Int × Breakpoint)), p.1 <
      (db_breakpoint ⟨[(1, ⟨"@/a.lua", 1⟩), (3, ⟨"@/b.lua", 2⟩)], true, false, true⟩
        ⟨"@/c.lua", 3⟩).1 := by
  have h := db_breakpoint_fresh
    ⟨[(1, ⟨"@/a.lua", 1⟩), (3, ⟨"@/b.lua", 2⟩)], true, false, true⟩
    ⟨"@/c.lua", 3⟩
    (List.chain'_cons.mpr ⟨by norm_num, List.chain'_singleton _⟩)
  exact ⟨h.2.1 (3, ⟨"@/b.lua", 2⟩) rfl, h.2.2.1⟩

/-! ### C6: referencer detach in `Computer::~Computer`

The destructor (Computer.cpp:142-153) walks every referencer instance and,
under that instance's `peripherals_mutex`, iterates its peripheral map
erasing entries whose peripheral is a `computer` peripheral pointing back at
the instance being destroyed.  The iteration is
`for (it = begin; it != end; ++it) { if (match) { delete; it = erase(it);
if (it == end) break; } }`: after an erase, `it` already names the successor
and the loop header's `++it` then *skips* that successor. -/

structure PeripheralObj where
  typeName : String
  target : Option Nat
  deriving Repr, DecidableEq

/-- Whether the destructor's condition
`getMethods().name == "computer" && ((computer*)p)->comp == this` holds. -/
def pointsBackAt (self : Nat) (p : PeripheralObj) : Prop :=
  p.typeName = "computer" ∧ p.target = some self

instance (self : Nat) (p : PeripheralObj) : Decidable (pointsBackAt self p) :=
  inferInstanceAs (Decidable (_ ∧ _))

/-- The destructor's per-referencer erase loop (Computer.cpp:144-151) over
the referencer's peripheral map in iteration order.  Returns the entries
remaining on the referencer. -/
def detachReferencerLoop (self : Nat) :
    List (String × PeripheralObj) → List (String × PeripheralObj)
  | [] => []
  | e :: rest =>
    if pointsBackAt self e.2 then
      match rest with
      | [] => []
      | f :: rest' => f :: detachReferencerLoop self rest'
    else e :: detachReferencerLoop self rest

/-- The full referencer scan of `Computer::~Computer`: each referencer's map
is processed (under that referencer's peripheral lock) by the erase loop. -/
def dtorDetachReferencers (self : Nat)
    (referencers : List (List (String × PeripheralObj))) :
    List (List (String × PeripheralObj)) :=
  referencers.map (detachReferencerLoop self)

/-- C6 evaluation at the failing input: a referencer holding two adjacent
computer peripherals pointing back at the dying instance 0 keeps the second
one — the erase loop's `++it` after `it = erase(it)` skips it.  The claim
says every back-pointing peripheral is removed; the surviving entry still
points at the destroyed instance. -/
theorem referencer_detach_skips_adjacent :
    dtorDetachReferencers 0
      [[("a", ⟨"computer", some 0⟩), ("b", ⟨"computer", some 0⟩)]] =
      [[("b", ⟨"computer", some 0⟩)]] ∧
    ∃ e ∈ (dtorDetachReferencers 0
      [[("a", ⟨"computer", some 0⟩), ("b", ⟨"computer", some 0⟩)]]).head!,
      pointsBackAt 0 e.2 := by
  refine ⟨by decide, ⟨("b", ⟨"computer", some 0⟩), by decide, by decide⟩⟩

/-! ### C7: `startComputer` and construction failure

`Computer::Computer` (Computer.cpp:76-126): after creating the terminal
handle, the ROM mount (and, for a debugger, the debug-ROM mount) may fail;
on failure, when standards mode is active and a terminal exists, the failure
is shown on screen and the terminal moves to `orphanedTerminals`, otherwise
the terminal is deleted; then `std::runtime_error` is thrown.
`startComputer` (Computer.cpp:674-689) catches it, reports once (message box
on a graphical renderer outside standards mode, stderr otherwise) and
returns NULL without registering the instance or spawning its thread. -/

structure HostConfig where
  standardsMode : Bool
  selectedRenderer : Nat
  deriving Repr, DecidableEq

structure CtorInput where
  debug : Bool
  term : Option Nat
  romMountOk : Bool
  debugMountOk : Bool
  deriving Repr, DecidableEq

structure CtorEffects where
  orphaned : List Nat
  deletedTerms : List Nat
  displayedFailure : Bool
  deriving Repr, DecidableEq

/-- The mount-failure handling of one failed `addMount`
(Computer.cpp:101-102): on-screen report and orphaning in standards mode
with a terminal, otherwise deletion of the terminal. -/
def mountFailureCleanup (cfg : HostConfig) (term : Option Nat) : CtorEffects :=
  if cfg.standardsMode ∧ term.isSome then ⟨term.toList, [], true⟩
  else ⟨[], term.toList, false⟩

/-- `Computer::Computer` reduced to its fallible part: the ROM mount and
(for debuggers) the debug-ROM mount, in source order.  `Except.error` is the
thrown `std::runtime_error`. -/
def computerCtor (cfg : HostConfig) (inp : CtorInput) :
    Except String Unit × CtorEffects :=
  if inp.romMountOk = false then
    (.error "Could not mount ROM", mountFailureCleanup cfg inp.term)
  else if inp.debug = true ∧ inp.debugMountOk = false then
    (.error "Could not mount debugger ROM", mountFailureCleanup cfg inp.term)
  else (.ok (), ⟨[], [], false⟩)

inductive ReportKind where
  | messageBox
  | stderrLine
  deriving Repr, DecidableEq

/-- The report channel chosen by `startComputer`'s catch clause
(Computer.cpp:677-678). -/
def reportChannel (cfg : HostConfig) : ReportKind :=
  if (cfg.selectedRenderer = 0 ∨ cfg.selectedRenderer = 5) ∧
      ¬ cfg.standardsMode then .messageBox
  else .stderrLine

structure Registry where
  computers : List Nat
  threads : List Nat
  reports : List (ReportKind × String)
  deriving Repr, DecidableEq

/-- `startComputer` (Computer.cpp:674-689): construct; on failure report
once and return NULL; on success register the instance under the registry
lock, spawn its thread, and return the handle. -/
def startComputer (cfg : HostConfig) (inp : CtorInput) (id : Nat)
    (g : Registry) : Option Nat × Registry × CtorEffects :=
  match computerCtor cfg inp with
  | (.error e, eff) =>
    (none, { g with reports := g.reports ++ [(reportChannel cfg, e)] }, eff)
  | (.ok _, eff) =>
    (some id,
      { g with computers := g.computers ++ [id], threads := g.threads ++ [id] },
      eff)

/-- C7. When construction fails, the error is reported exactly once, the
instance is never added to the live-instance registry, no instance thread
is spawned, the caller receives no handle, and the display handle is
released — or transferred to the orphaned-display set exactly when
standards mode requires on-screen failure reporting and a display exists.
No partially-registered instance is ever visible. -/
theorem start_computer_ctor_failure (cfg : HostConfig) (inp : CtorInput)
    (id : Nat) (g : Registry) (e : String)
    (h : (computerCtor cfg inp).1 = .error e) :
    (startComputer cfg inp id g).1 = none ∧
    (startComputer cfg inp id g).2.1.computers = g.computers ∧
    (startComputer cfg inp id g).2.1.threads = g.threads ∧
    (startComputer cfg inp id g).2.1.reports =
      g.reports ++ [(reportChannel cfg, e)] ∧
    (if cfg.standardsMode ∧ inp.term.isSome then
      (startComputer cfg inp id g).2.2.orphaned = inp.term.toList ∧
      (startComputer cfg inp id g).2.2.deletedTerms = []
    else
      (startComputer cfg inp id g).2.2.orphaned = [] ∧
      (startComputer cfg inp id g).2.2.deletedTerms = inp.term.toList) := by
  have main : ∀ msg, computerCtor cfg inp =
      (.error msg, mountFailureCleanup cfg inp.term) → e = msg →
      (startComputer cfg inp id g).1 = none ∧
      (startComputer cfg inp id g).2.1.computers = g.computers ∧
      (startComputer cfg inp id g).2.1.threads = g.threads ∧
      (startComputer cfg inp id g).2.1.reports =
        g.reports ++ [(reportChannel cfg, e)] ∧
      (if cfg.standardsMode ∧ inp.term.isSome then
        (startComputer cfg inp id g).2.2.orphaned = inp.term.toList ∧
        (startComputer cfg inp id g).2.2.deletedTerms = []
      else
        (startComputer cfg inp id g).2.2.orphaned = [] ∧
        (startComputer cfg inp id g).2.2.deletedTerms = inp.term.toList) := by
    intro msg hctor he
    subst he
    refine ⟨by simp [startComputer, hctor], by simp [startComputer, hctor],
      by simp [startComputer, hctor], by simp [startComputer, hctor], ?_⟩
    simp only [startComputer, hctor, mountFailureCleanup]
    split <;> simp
  cases hrom : inp.romMountOk with
  | false =>
    have hctor : computerCtor cfg inp =
        (.error "Could not mount ROM", mountFailureCleanup cfg inp.term) := by
      simp [computerCtor, hrom]
    refine main "Could not mount ROM" hctor ?_
    rw [hctor] at h
    exact (Except.error.inj h).symm
  | true =>
    have hd : inp.debug = true ∧ inp.debugMountOk = false := by
      by_contra hc
      simp [computerCtor, hrom, hc] at h
    have hctor : computerCtor cfg inp =
        (.error "Could not mount debugger ROM",
          mountFailureCleanup cfg inp.term) := by
      simp [computerCtor, hrom, hd]
    refine main "Could not mount debugger ROM" hctor ?_
    rw [hctor] at h
    exact (Except.error.inj h).symm

/-- Witness for C7: ROM mount failure in standards mode with a display. -/
theorem start_computer_ctor_failure_witness :
    (computerCtor ⟨true, 0⟩ ⟨false, some 7, false, true⟩).1 =
      .error "Could not mount ROM" ∧
    (startComputer ⟨true, 0⟩ ⟨false, some 7, false, true⟩ 3 ⟨[], [], []⟩).1 =
      none ∧
    (startComputer ⟨true, 0⟩ ⟨false, some 7, false, true⟩ 3
      ⟨[], [], []⟩).2.2.orphaned = [7] := by
  have h := start_computer_ctor_failure ⟨true, 0⟩ ⟨false, some 7, false, true⟩
    3 ⟨[], [], []⟩ "Could not mount ROM" rfl
  refine ⟨rfl, h.1, ?_⟩
  have h5 := h.2.2.2.2
  rw [if_pos (by decide)] at h5
  simpa using h5.1

/-! ### The Execution Loop (`runComputer`) and thread body (`computerThread`)

`runComputer` (Computer.cpp:322-608) is modelled by the ordered trace of the
operations relevant to C8-C10, one incarnation (pass of the outer
`while (self->running)` loop) at a time.  Per incarnation the source order
is: terminal reset (329-340), fresh Lua state plus main and parameter
coroutines (347-350), drain of the guest event queue (351), peripheral
reinitialization (354), library loading (370-395), global setup (417-540),
BIOS load (543-554); on BIOS failure (556-571) a stderr report, then a
fatal-error screen in standards mode or a queued message dialog otherwise,
then `return` (no reboot, no resume); on success the watchdog timer is
armed (580) and the guest is resumed until the incarnation exits, after
which the VM is closed (605) and the loop reboots or halts. -/

structure RunCfg where
  standardsMode : Bool
  abortTimeout : Nat
  deriving Repr, DecidableEq

/-- The watchdog timeout armed at the start of Running (Computer.cpp:580):
`::config.standardsMode ? 7000 : ::config.abortTimeout`. -/
def watchdogTimeout (cfg : RunCfg) : Nat :=
  if cfg.standardsMode then 7000 else cfg.abortTimeout

inductive REvent where
  | initTerminal
  | newLuaState
  | drainEventQueue
  | reinitPeripherals
  | loadLibraries
  | setGlobals
  | loadBios
  | reportBiosConsole
  | biosDisplayFailure
  | biosMessageDialog
  | armWatchdog (ms : Nat)
  | resumeGuest
  | closeLuaState
  deriving Repr, DecidableEq

inductive ExitKind where
  | halt
  | reboot
  deriving Repr, DecidableEq

/-- Inputs of one incarnation: the configuration active at this Boot, the
outcome of loading the boot script, how many times the guest main coroutine
is resumed, and how the incarnation ends. -/
structure IncInput where
  cfg : RunCfg
  biosLoad : Except String Unit
  resumes : Nat
  exit : ExitKind

/-- The Booting segment common to every incarnation, in source order
(Computer.cpp:329-554). -/
def bootEvents : List REvent :=
  [.initTerminal, .newLuaState, .drainEventQueue, .reinitPeripherals,
   .loadLibraries, .setGlobals, .loadBios]

/-- The trace of one incarnation. -/
def incarnationEvents (inp : IncInput) : List REvent :=
  bootEvents ++
    match inp.biosLoad with
    | .error _ =>
      .reportBiosConsole ::
        (if inp.cfg.standardsMode then [.biosDisplayFailure]
         else [.biosMessageDialog])
    | .ok _ =>
      .armWatchdog (watchdogTimeout inp.cfg) ::
        (List.replicate (inp.resumes + 1) .resumeGuest ++ [.closeLuaState])

/-- `runComputer`: incarnations chained by the outer loop; a BIOS load
failure `return`s immediately (Computer.cpp:570), a halt exits the loop, a
reboot starts the next incarnation with the then-active configuration. -/
def runComputer : List IncInput → List REvent
  | [] => []
  | inp :: rest =>
    incarnationEvents inp ++
      match inp.biosLoad with
      | .error _ => []
      | .ok _ =>
        match inp.exit with
        | .reboot => runComputer rest
        | .halt => []

inductive ThreadEvent where
  | run (e : REvent)
  | insertFreed
  | deregister
  | scheduleDelete
  deriving Repr, DecidableEq

/-- `computerThread` (Computer.cpp:622-669): run the Execution Loop, then —
exception or not — insert the instance into the freed set, remove it from
the live registry and schedule its deletion. -/
def computerThread (incs : List IncInput) : List ThreadEvent :=
  (runComputer incs).map .run ++ [.insertFreed, .deregister, .scheduleDelete]

/-- `while (!self->eventQueue.empty()) self->eventQueue.pop();`
(Computer.cpp:351). -/
def drainQueue {α : Type _} : List α → List α
  | [] => []
  | _ :: rest => drainQueue rest

/-- C8. When the boot script fails to load, the fatal-error path runs
exactly once (one operator-console report plus exactly one of fatal-error
screen / message dialog), the Execution Loop exits without ever resuming
the guest main coroutine (the watchdog is never armed, Running never
starts) and without rebooting into the following incarnations, and the
thread body still performs the full teardown afterwards. -/
theorem bios_failure_fatal (cfg : RunCfg) (msg : String) (r : Nat)
    (ex : ExitKind) (rest : List IncInput) :
    computerThread (⟨cfg, .error msg, r, ex⟩ :: rest) =
      (bootEvents ++ REvent.reportBiosConsole ::
        (if cfg.standardsMode then [REvent.biosDisplayFailure]
         else [REvent.biosMessageDialog])).map .run ++
      [.insertFreed, .deregister, .scheduleDelete] ∧
    (computerThread (⟨cfg, .error msg, r, ex⟩ :: rest)).count
      (.run .reportBiosConsole) = 1 ∧
    (computerThread (⟨cfg, .error msg, r, ex⟩ :: rest)).count
      (.run .biosDisplayFailure) +
      (computerThread (⟨cfg, .error msg, r, ex⟩ :: rest)).count
        (.run .biosMessageDialog) = 1 ∧
    .run .resumeGuest ∉ computerThread (⟨cfg, .error msg, r, ex⟩ :: rest) ∧
    (∀ t, .run (.armWatchdog t) ∉
      computerThread (⟨cfg, .error msg, r, ex⟩ :: rest)) := by
  have htrace : computerThread (⟨cfg, .error msg, r, ex⟩ :: rest) =
      (bootEvents ++ REvent.reportBiosConsole ::
        (if cfg.standardsMode then [REvent.biosDisplayFailure]
         else [REvent.biosMessageDialog])).map .run ++
      [.insertFreed, .deregister, .scheduleDelete] := by
    simp [computerThread, runComputer, incarnationEvents]
  refine ⟨htrace, ?_, ?_, ?_, ?_⟩ <;> rw [htrace]
  · cases hs : cfg.standardsMode <;> simp [hs, bootEvents, List.count_append]
  · cases hs : cfg.standardsMode <;> simp [hs, bootEvents, List.count_append]
  · cases hs : cfg.standardsMode <;> simp [hs, bootEvents]
  · intro t
    cases hs : cfg.standardsMode <;> simp [hs, bootEvents]

/-- C9. The watchdog timeout armed at the start of Running is the value
computed from the configuration active at that Boot (7000 in standards
mode, the configured abort timeout otherwise): every armed value in an
incarnation equals `watchdogTimeout` of that incarnation's configuration,
it is re-read on every Boot (after a reboot the next incarnation arms the
value of the new configuration), and it is not a hard-coded constant (two
configurations give two different armed values). -/
theorem watchdog_from_config :
    (∀ inp : IncInput, ∀ u, inp.biosLoad = .ok u →
      .armWatchdog (watchdogTimeout inp.cfg) ∈ incarnationEvents inp ∧
      ∀ t, .armWatchdog t ∈ incarnationEvents inp →
        t = watchdogTimeout inp.cfg) ∧
    (∀ (c₁ c₂ : RunCfg) (r₁ r₂ : Nat) (e₂ : ExitKind),
      .armWatchdog (watchdogTimeout c₁) ∈
        runComputer [⟨c₁, .ok (), r₁, .reboot⟩, ⟨c₂, .ok (), r₂, e₂⟩] ∧
      .armWatchdog (watchdogTimeout c₂) ∈
        runComputer [⟨c₁, .ok (), r₁, .reboot⟩, ⟨c₂, .ok (), r₂, e₂⟩]) ∧
    watchdogTimeout ⟨false, 10000⟩ ≠ watchdogTimeout ⟨false, 20000⟩ := by
  refine ⟨?_, ?_, by decide⟩
  · intro inp u hok
    constructor
    · simp [incarnationEvents, hok, bootEvents]
    · intro t ht
      simp [incarnationEvents, hok, bootEvents, List.mem_replicate] at ht
      exact ht
  · intro c₁ c₂ r₁ r₂ e₂
    constructor <;>
      simp [runComputer, incarnationEvents, bootEvents]

/-- Witness for C9 at concrete configurations: a standards-mode boot arms
7000, a reboot into a non-standards configuration arms its abort timeout. -/
theorem watchdog_from_config_witness :
    .armWatchdog (watchdogTimeout ⟨true, 3000⟩) ∈
      incarnationEvents ⟨⟨true, 3000⟩, .ok (), 1, .halt⟩ ∧
    .armWatchdog (watchdogTimeout ⟨false, 3000⟩) ∈
      runComputer [⟨⟨true, 9⟩, .ok (), 0, .reboot⟩,
        ⟨⟨false, 3000⟩, .ok (), 0, .halt⟩] :=
  ⟨(watchdog_from_config.1 ⟨⟨true, 3000⟩, .ok (), 1, .halt⟩ () rfl).1,
   (watchdog_from_config.2.1 ⟨true, 9⟩ ⟨false, 3000⟩ 0 0 .halt).2⟩

/-- C10. At the start of every incarnation the guest event queue is drained
to empty (the drain loop always ends with an empty queue), and in the
incarnation's trace the drain happens strictly before any library loading
and before any resume of the guest coroutine — so no event enqueued during
a previous incarnation is ever delivered to the new incarnation's guest. -/
theorem event_queue_drained_per_boot :
    (∀ (q : List (String × Nat)), drainQueue q = []) ∧
    (∀ inp : IncInput, ∃ post,
      incarnationEvents inp =
        [.initTerminal, .newLuaState] ++ [.drainEventQueue] ++ post ∧
      .loadLibraries ∉ [REvent.initTerminal, .newLuaState] ∧
      .resumeGuest ∉ [REvent.initTerminal, .newLuaState] ∧
      .loadLibraries ∈ post) := by
  constructor
  · intro q
    induction q with
    | nil => rfl
    | cons a rest ih => simpa [drainQueue] using ih
  · intro inp
    refine ⟨[.reinitPeripherals, .loadLibraries, .setGlobals, .loadBios] ++
      (match inp.biosLoad with
        | .error _ =>
          .reportBiosConsole ::
            (if inp.cfg.standardsMode then [.biosDisplayFailure]
             else [.biosMessageDialog])
        | .ok _ =>
          .armWatchdog (watchdogTimeout inp.cfg) ::
            (List.replicate (inp.resumes + 1) .resumeGuest ++
              [.closeLuaState])), ?_, by decide, by decide, by simp⟩
    simp [incarnationEvents, bootEvents]

end CraftOS
